import Mathlib

/-!
Shallow embedding of `PlaydatesApp/tools/app-icon/generate_app_icon.py`.

The script draws a 1024x1024 RGBA app icon with PIL drawing primitives
(rounded rectangles, rectangles, ellipses, thick lines) and exports it at a
fixed manifest of sizes: the 1024 entry is saved directly from the canvas and
every other entry is produced by `icon.resize((size, size), LANCZOS)`.

Modelling choices:
* Pixel coordinates are natural numbers; drawing geometry is exact rational
  arithmetic (the Python source uses floats whose values here are the exact
  decimal constants written in the source).
* An image is a function from pixel coordinates to an RGBA value whose
  channels are rationals (PIL stores 8-bit channels; we keep the exact values,
  which agree with PIL on the integer-valued facts proved below).
* PIL library internals (the rasterised coverage region of each primitive,
  the LANCZOS resampler, `os.makedirs`) are not part of the repository source;
  they are modelled here by faithful executable definitions, flagged in their
  doc comments.
-/

/-- An RGB colour triple as written in the source (8-bit channels). -/
structure RGB where
  r : ℕ
  g : ℕ
  b : ℕ
deriving DecidableEq

/-- An RGBA pixel value; channels kept as exact rationals. -/
structure RGBA where
  r : ℚ
  g : ℚ
  b : ℚ
  a : ℚ
deriving DecidableEq

/-- PIL fills an RGBA image with a 3-tuple colour by taking alpha = 255. -/
def RGB.toRGBA (c : RGB) : RGBA := ⟨c.r, c.g, c.b, 255⟩

-- Colors from ColorTheme (RGB tuples 0-255), as in the source.
def primary_color : RGB := ⟨145, 221, 207⟩
def secondary_color : RGB := ⟨247, 249, 242⟩
def accent_color : RGB := ⟨232, 197, 229⟩
def highlight_color : RGB := ⟨241, 158, 210⟩
def text_color : RGB := ⟨93, 78, 109⟩
def info_blue_color : RGB := ⟨33, 150, 243⟩

/-- The output directory constant of the script. -/
def output_dir : String := "PlaydatesApp/Assets.xcassets/AppIcon.appiconset"

/-- The size manifest `icon_sizes` of the script, in source order. -/
def icon_sizes : List (ℕ × String) :=
  [(1024, "playdates-icon-1024.png"),
   (180, "playdates-icon-180.png"),
   (120, "playdates-icon-120.png"),
   (167, "playdates-icon-167.png"),
   (152, "playdates-icon-152.png"),
   (87, "playdates-icon-87.png"),
   (80, "playdates-icon-80.png"),
   (76, "playdates-icon-76.png"),
   (60, "playdates-icon-60.png"),
   (58, "playdates-icon-58.png"),
   (40, "playdates-icon-40.png"),
   (29, "playdates-icon-29.png"),
   (20, "playdates-icon-20.png")]

/-- The base canvas size (`base_size = 1024`). -/
def base_size : ℕ := 1024

-- Geometry constants of the icon design, exactly as computed in the source.
def calendar_size : ℚ := (base_size : ℚ) * 0.65
def icon_size_small : ℚ := (base_size : ℚ) * 0.12
def offset_factor : ℚ := calendar_size * 0.4
def center_x : ℚ := (base_size : ℚ) / 2
def center_y : ℚ := (base_size : ℚ) / 2
def calendar_x1 : ℚ := center_x - calendar_size / 2
def calendar_y1 : ℚ := center_y - calendar_size / 2
def calendar_x2 : ℚ := center_x + calendar_size / 2
def calendar_y2 : ℚ := center_y + calendar_size / 2
def calendar_corner_radius : ℚ := calendar_size * 0.1
def top_bar_height : ℚ := calendar_size * 0.15
def ring_radius : ℚ := top_bar_height * 0.2
def ring_y : ℚ := calendar_y1 + top_bar_height / 2
def ring_spacing : ℚ := calendar_size * 0.2
def icon_center_y : ℚ := center_y + top_bar_height / 2

/-- One primitive draw call, carrying the coordinates in the order the source
passes them and the fill colour. -/
inductive DrawOp where
  | rounded_rectangle (x1 y1 x2 y2 radius : ℚ) (fill : RGB)
  | rectangle (x1 y1 x2 y2 : ℚ) (fill : RGB)
  | ellipse (x1 y1 x2 y2 : ℚ) (fill : RGB)
  | line (xa ya xb yb : ℚ) (fill : RGB) (width : ℕ)

/-- The fill colour of a draw call. -/
def DrawOp.color : DrawOp → RGB
  | .rounded_rectangle _ _ _ _ _ c => c
  | .rectangle _ _ _ _ c => c
  | .ellipse _ _ _ _ c => c
  | .line _ _ _ _ c _ => c

/-- Membership in the closed axis-aligned rectangle `[x1, x2] x [y1, y2]`. -/
def inClosedRect (x1 y1 x2 y2 x y : ℚ) : Bool :=
  decide (x1 ≤ x) && decide (x ≤ x2) && decide (y1 ≤ y) && decide (y ≤ y2)

/-- Membership in the closed disk of centre `(cx, cy)` and radius `r`. -/
def inDisk (cx cy r x y : ℚ) : Bool :=
  decide ((x - cx) ^ 2 + (y - cy) ^ 2 ≤ r ^ 2)

/-- Modelled PIL rounded-rectangle region: the rectangle minus the four corner
squares outside their quarter disks of the given radius. -/
def inRoundedRect (x1 y1 x2 y2 r x y : ℚ) : Bool :=
  inClosedRect x1 y1 x2 y2 x y &&
  (!(decide (x < x1 + r) && decide (y < y1 + r)) || inDisk (x1 + r) (y1 + r) r x y) &&
  (!(decide (x2 - r < x) && decide (y < y1 + r)) || inDisk (x2 - r) (y1 + r) r x y) &&
  (!(decide (x < x1 + r) && decide (y2 - r < y)) || inDisk (x1 + r) (y2 - r) r x y) &&
  (!(decide (x2 - r < x) && decide (y2 - r < y)) || inDisk (x2 - r) (y2 - r) r x y)

/-- Modelled PIL ellipse region inscribed in the box `[x1, x2] x [y1, y2]`. -/
def inEllipse (x1 y1 x2 y2 x y : ℚ) : Bool :=
  decide ((x - (x1 + x2) / 2) ^ 2 * ((y2 - y1) / 2) ^ 2 +
          (y - (y1 + y2) / 2) ^ 2 * ((x2 - x1) / 2) ^ 2 ≤
          ((x2 - x1) / 2) ^ 2 * ((y2 - y1) / 2) ^ 2)

/-- Modelled PIL thick-line region: points within `width / 2` of the segment
(distance measured to the clamped orthogonal projection). -/
def segCovers (xa ya xb yb : ℚ) (w : ℚ) (x y : ℚ) : Bool :=
  let dx := xb - xa
  let dy := yb - ya
  let len2 := dx ^ 2 + dy ^ 2
  let t := if len2 = 0 then 0 else ((x - xa) * dx + (y - ya) * dy) / len2
  let tc := max 0 (min 1 t)
  decide ((x - (xa + tc * dx)) ^ 2 + (y - (ya + tc * dy)) ^ 2 ≤ (w / 2) ^ 2)

/-- Which integer pixels a draw call paints (modelled PIL rasterisation). -/
def DrawOp.covers : DrawOp → ℕ → ℕ → Bool
  | .rounded_rectangle x1 y1 x2 y2 r _, x, y => inRoundedRect x1 y1 x2 y2 r (x : ℚ) (y : ℚ)
  | .rectangle x1 y1 x2 y2 _, x, y => inClosedRect x1 y1 x2 y2 (x : ℚ) (y : ℚ)
  | .ellipse x1 y1 x2 y2 _, x, y => inEllipse x1 y1 x2 y2 (x : ℚ) (y : ℚ)
  | .line xa ya xb yb _ w, x, y => segCovers xa ya xb yb (w : ℚ) (x : ℚ) (y : ℚ)

/-- Painting one draw call over an image: covered pixels take the opaque fill
colour, all other pixels are untouched. -/
def applyOp (img : ℕ → ℕ → RGBA) (op : DrawOp) : ℕ → ℕ → RGBA :=
  fun x y => if op.covers x y then op.color.toRGBA else img x y

/-- Painting a list of draw calls in order (later calls paint over earlier). -/
def applyOps (img : ℕ → ℕ → RGBA) : List DrawOp → (ℕ → ℕ → RGBA)
  | [] => img
  | op :: rest => applyOps (applyOp img op) rest

/-- `Image.new('RGBA', _, c)` with an RGB triple: every pixel opaque `c`. -/
def newRGBA (c : RGB) : ℕ → ℕ → RGBA := fun _ _ => c.toRGBA

/-- The draw calls performed by `draw_placeholder_icon`, translated branch by
branch from the source; an unrecognised symbol name draws nothing. -/
def draw_placeholder_icon (symbol_name : String) (position : ℚ × ℚ) (size : ℚ)
    (color : RGB) : List DrawOp :=
  let x := position.1
  let y := position.2
  let half_size := size / 2
  if symbol_name = "leaf.fill" then
    [.ellipse (x - half_size) (y - half_size) (x + half_size) (y + half_size) primary_color]
  else if symbol_name = "building.columns.fill" then
    [.rectangle (x - half_size) (y - half_size) (x + half_size) (y + half_size) text_color]
  else if symbol_name = "figure.play" then
    let head_radius := size * 0.2
    let arm_width := size * 0.4
    let leg_sep := size * 0.2
    let w := max 1 (Int.toNat ⌊size * 0.1⌋)
    [.ellipse (x - head_radius) (y - half_size) (x + head_radius)
       (y - half_size + 2 * head_radius) color,
     .line x (y - half_size + 2 * head_radius) x (y + head_radius) color w,
     .line (x - arm_width / 2) y (x + arm_width / 2) y color w,
     .line x (y + head_radius) (x - leg_sep) (y + half_size) color w,
     .line x (y + head_radius) (x + leg_sep) (y + half_size) color w]
  else []

/-- Every draw call of the script, in execution order: calendar body, calendar
top bar, the two binder rings, then the three placeholder icons. -/
def program_draw_ops : List DrawOp :=
  [DrawOp.rounded_rectangle calendar_x1 calendar_y1 calendar_x2 calendar_y2
     calendar_corner_radius accent_color,
   DrawOp.rounded_rectangle calendar_x1 calendar_y1 calendar_x2
     (calendar_y1 + top_bar_height) calendar_corner_radius text_color,
   DrawOp.ellipse (center_x - ring_spacing - ring_radius) (ring_y - ring_radius)
     (center_x - ring_spacing + ring_radius) (ring_y + ring_radius) info_blue_color,
   DrawOp.ellipse (center_x + ring_spacing - ring_radius) (ring_y - ring_radius)
     (center_x + ring_spacing + ring_radius) (ring_y + ring_radius) info_blue_color]
  ++ draw_placeholder_icon "leaf.fill"
       (center_x - offset_factor, icon_center_y - offset_factor * 0.8)
       icon_size_small highlight_color
  ++ draw_placeholder_icon "building.columns.fill"
       (center_x + offset_factor, icon_center_y - offset_factor * 0.8)
       icon_size_small text_color
  ++ draw_placeholder_icon "figure.play"
       (center_x, icon_center_y + offset_factor * 0.8)
       icon_size_small highlight_color

/-- The base canvas after all drawing: background `info_blue_color`, then all
draw calls applied in order. -/
def icon : ℕ → ℕ → RGBA := applyOps (newRGBA info_blue_color) program_draw_ops

/-- PIL resampling filters (`Image.Resampling`). -/
inductive Resampling where
  | NEAREST
  | BOX
  | BILINEAR
  | HAMMING
  | BICUBIC
  | LANCZOS
deriving DecidableEq

/-- Length of a unit interval `[u, u+1)` clipped to `[lo, hi]`, via the clamp
function `t ↦ max lo (min t hi)` evaluated at the endpoints. -/
def clampTo (lo hi t : ℚ) : ℚ := max lo (min t hi)

/-- Source-pixel scale of a resize from `srcSize` to `dstSize`. -/
def scale (srcSize dstSize : ℕ) : ℚ := (srcSize : ℚ) / (dstSize : ℚ)

/-- Area overlap of source column `u` with destination column `i` under scale
`s`: the length of `[u, u+1) ∩ [i*s, (i+1)*s)`. -/
def coverage (s : ℚ) (i u : ℕ) : ℚ :=
  clampTo ((i : ℚ) * s) (((i : ℚ) + 1) * s) ((u : ℚ) + 1) -
    clampTo ((i : ℚ) * s) (((i : ℚ) + 1) * s) (u : ℚ)

/-- Weighted sum of a scalar channel over the source block of destination
pixel `(i, j)`. -/
def boxSum (f : ℕ → ℕ → ℚ) (srcSize dstSize i j : ℕ) : ℚ :=
  ∑ u in Finset.range srcSize, ∑ v in Finset.range srcSize,
    coverage (scale srcSize dstSize) i u * coverage (scale srcSize dstSize) j v * f u v

/-- Normalised area average of a scalar channel for destination pixel `(i, j)`. -/
def boxAvg (f : ℕ → ℕ → ℚ) (srcSize dstSize i j : ℕ) : ℚ :=
  boxSum f srcSize dstSize i j / (scale srcSize dstSize * scale srcSize dstSize)

/-- Modelled from the spec: PIL's anti-aliased downsampling (the source calls
`icon.resize((size, size), Image.Resampling.LANCZOS)`; the resampler itself is
PIL library code absent from the repository). The spec describes it as
quality-preserving area-averaging/anti-aliased resampling, modelled here as
the normalised area average of each channel over the source block. -/
def resample (px : ℕ → ℕ → RGBA) (srcSize dstSize : ℕ) : ℕ → ℕ → RGBA :=
  fun i j =>
    ⟨boxAvg (fun u v => (px u v).r) srcSize dstSize i j,
     boxAvg (fun u v => (px u v).g) srcSize dstSize i j,
     boxAvg (fun u v => (px u v).b) srcSize dstSize i j,
     boxAvg (fun u v => (px u v).a) srcSize dstSize i j⟩

/-- One file written by a run: its path, pixel dimensions, pixel data, and the
resampling filter used to produce it (`none` for a direct save of the canvas). -/
structure SavedFile where
  path : String
  width : ℕ
  height : ℕ
  px : ℕ → ℕ → RGBA
  filter : Option Resampling

/-- `os.path.join` for the flat paths the script uses. -/
def path_join (d f : String) : String := d ++ "/" ++ f

/-- `base_icon_path = os.path.join(output_dir, "playdates-icon-1024.png")`. -/
def base_icon_path : String := path_join output_dir "playdates-icon-1024.png"

/-- Every file a successful run writes, in write order: the base canvas saved
directly before the loop, then the resize loop over `icon_sizes`, which skips
the entry whose size equals `base_size` and LANCZOS-resizes the canvas for
each other entry. -/
def written_files : List SavedFile :=
  { path := base_icon_path, width := base_size, height := base_size,
    px := icon, filter := none } ::
  (icon_sizes.filter (fun e => e.1 != base_size)).map
    (fun e =>
      { path := path_join output_dir e.2, width := e.1, height := e.1,
        px := resample icon base_size e.1, filter := some Resampling.LANCZOS })

/-- A run indexed by invocation number. The script reads no input (no CLI
flags, no environment, no randomness): the outputs are the same function of
the compile-time constants on every invocation, so the index is unused. -/
def generated_outputs : ℕ → List SavedFile := fun _ => written_files

/-- The canvas produced by the drawing routine on a given invocation; the
script reads no input, so the index is unused. -/
def generated_canvas : ℕ → (ℕ → ℕ → RGBA) := fun _ => icon

/-- Error kinds for the modelled filesystem call. -/
inductive OSErrorKind where
  | fileExists
  | permissionError
deriving DecidableEq

/-- A filesystem abstraction: which directories exist, and which paths cannot
be created. -/
structure FileSystem where
  dirs : List String
  unwritablePaths : List String
deriving DecidableEq

/-- Modelled from the spec: `os.makedirs(path, exist_ok=...)` is Python
standard-library code absent from the repository. If the directory exists it
succeeds silently (when `exist_ok`) leaving the filesystem unchanged;
otherwise it creates the directory, failing with a filesystem error when the
path is unwritable. -/
def makedirs (fs : FileSystem) (path : String) (exist_ok : Bool) :
    Except OSErrorKind FileSystem :=
  if path ∈ fs.dirs then
    if exist_ok then Except.ok fs else Except.error OSErrorKind.fileExists
  else if path ∈ fs.unwritablePaths then
    Except.error OSErrorKind.permissionError
  else
    Except.ok ⟨path :: fs.dirs, fs.unwritablePaths⟩

/-- Well-ordered coordinates as claim C7 states it for every primitive,
including line calls: first x and y not greater than second x and y. -/
def coordsOrdered : DrawOp → Bool
  | .rounded_rectangle x1 y1 x2 y2 _ _ => decide (x1 ≤ x2) && decide (y1 ≤ y2)
  | .rectangle x1 y1 x2 y2 _ => decide (x1 ≤ x2) && decide (y1 ≤ y2)
  | .ellipse x1 y1 x2 y2 _ => decide (x1 ≤ x2) && decide (y1 ≤ y2)
  | .line xa ya xb yb _ _ => decide (xa ≤ xb) && decide (ya ≤ yb)

/-- Well-ordered coordinates for the fill primitives whose PIL implementations
reject reversed boxes (rectangle, rounded rectangle, ellipse); line calls
accept endpoints in any order and are exempt. -/
def fillCoordsOrdered : DrawOp → Bool
  | .rounded_rectangle x1 y1 x2 y2 _ _ => decide (x1 ≤ x2) && decide (y1 ≤ y2)
  | .rectangle x1 y1 x2 y2 _ => decide (x1 ≤ x2) && decide (y1 ≤ y2)
  | .ellipse x1 y1 x2 y2 _ => decide (x1 ≤ x2) && decide (y1 ≤ y2)
  | .line _ _ _ _ _ _ => true

/-- A 4x4 test image with a hard diagonal edge: white strictly below the
diagonal (x > y), black elsewhere. -/
def edge_image : ℕ → ℕ → RGBA :=
  fun x y => if y < x then ⟨255, 255, 255, 255⟩ else ⟨0, 0, 0, 255⟩

/-- Applying draw calls whose fills are all opaque keeps every pixel's alpha
at 255. -/
theorem alpha_applyOps (ops : List DrawOp) (img : ℕ → ℕ → RGBA)
    (h : ∀ x y, (img x y).a = 255) : ∀ x y, (applyOps img ops x y).a = 255 := by
  induction ops generalizing img with
  | nil => exact h
  | cons op rest ih =>
    refine ih (applyOp img op) (fun x y => ?_)
    simp only [applyOp]
    split
    · rfl
    · exact h x y

/-- Every pixel of the drawn canvas is fully opaque. -/
theorem alpha_icon : ∀ x y, (icon x y).a = 255 :=
  alpha_applyOps program_draw_ops (newRGBA info_blue_color) (fun _ _ => rfl)

/-- The coverage weights of one destination column sum to the scale factor
when the destination block lies inside the source range. -/
theorem sum_coverage (s : ℚ) (hs : 0 ≤ s) (i n : ℕ)
    (hn : ((i : ℚ) + 1) * s ≤ (n : ℚ)) :
    ∑ u in Finset.range n, coverage s i u = s := by
  have key : ∀ u : ℕ, coverage s i u =
      (fun m : ℕ => clampTo ((i : ℚ) * s) (((i : ℚ) + 1) * s) (m : ℚ)) (u + 1) -
      (fun m : ℕ => clampTo ((i : ℚ) * s) (((i : ℚ) + 1) * s) (m : ℚ)) u := by
    intro u
    simp only [coverage]
    push_cast
    ring_nf
  have tele := Finset.sum_range_sub
    (fun m : ℕ => clampTo ((i : ℚ) * s) (((i : ℚ) + 1) * s) (m : ℚ)) n
  rw [Finset.sum_congr rfl (fun u _ => key u), tele]
  have hlo : (0 : ℚ) ≤ (i : ℚ) * s := by positivity
  have hlohi : (i : ℚ) * s ≤ ((i : ℚ) + 1) * s := by nlinarith [hs]
  have h0hi : (0 : ℚ) ≤ ((i : ℚ) + 1) * s := le_trans hlo hlohi
  simp only [clampTo, Nat.cast_zero]
  rw [min_eq_right hn, max_eq_right hlohi, min_eq_left h0hi, max_eq_left hlo]
  ring

/-- The normalised area average of a constant channel is that constant. -/
theorem boxAvg_const (f : ℕ → ℕ → ℚ) (c : ℚ) (hf : ∀ u v, f u v = c)
    (srcSize dstSize i j : ℕ) (hdst : 0 < dstSize) (hle : dstSize ≤ srcSize)
    (hi : i < dstSize) (hj : j < dstSize) :
    boxAvg f srcSize dstSize i j = c := by
  have hdq : (0 : ℚ) < (dstSize : ℚ) := by exact_mod_cast hdst
  have hsq : (0 : ℚ) < (srcSize : ℚ) := by exact_mod_cast lt_of_lt_of_le hdst hle
  have hs : 0 < scale srcSize dstSize := div_pos hsq hdq
  have hbound : ∀ k : ℕ, k < dstSize →
      ((k : ℚ) + 1) * scale srcSize dstSize ≤ (srcSize : ℚ) := by
    intro k hk
    have hk1 : ((k : ℚ) + 1) ≤ (dstSize : ℚ) := by exact_mod_cast hk
    calc ((k : ℚ) + 1) * scale srcSize dstSize
        ≤ (dstSize : ℚ) * scale srcSize dstSize :=
          mul_le_mul_of_nonneg_right hk1 (le_of_lt hs)
      _ = (srcSize : ℚ) := by
          rw [scale]
          field_simp
  have hsumi := sum_coverage (scale srcSize dstSize) (le_of_lt hs) i srcSize (hbound i hi)
  have hsumj := sum_coverage (scale srcSize dstSize) (le_of_lt hs) j srcSize (hbound j hj)
  have step1 : ∀ u : ℕ, (∑ v in Finset.range srcSize,
      coverage (scale srcSize dstSize) i u * coverage (scale srcSize dstSize) j v * f u v)
      = coverage (scale srcSize dstSize) i u * (scale srcSize dstSize * c) := by
    intro u
    simp_rw [hf, mul_assoc, ← Finset.mul_sum, ← Finset.sum_mul, hsumj]
  have hbs : boxSum f srcSize dstSize i j =
      scale srcSize dstSize * (scale srcSize dstSize * c) := by
    rw [boxSum, Finset.sum_congr rfl (fun u _ => step1 u), ← Finset.sum_mul, hsumi]
  rw [boxAvg, hbs]
  field_simp
  ring

/-- Resampling a constant image gives back the constant at every valid
destination pixel. -/
theorem resample_const (c : RGBA) (srcSize dstSize i j : ℕ) (hdst : 0 < dstSize)
    (hle : dstSize ≤ srcSize) (hi : i < dstSize) (hj : j < dstSize) :
    resample (fun _ _ => c) srcSize dstSize i j = c := by
  cases c with
  | mk r g b a =>
    simp only [resample, RGBA.mk.injEq]
    exact ⟨boxAvg_const _ r (fun _ _ => rfl) srcSize dstSize i j hdst hle hi hj,
           boxAvg_const _ g (fun _ _ => rfl) srcSize dstSize i j hdst hle hi hj,
           boxAvg_const _ b (fun _ _ => rfl) srcSize dstSize i j hdst hle hi hj,
           boxAvg_const _ a (fun _ _ => rfl) srcSize dstSize i j hdst hle hi hj⟩

/-- Resampling a fully opaque image keeps alpha at 255 at every valid
destination pixel. -/
theorem resample_alpha (px : ℕ → ℕ → RGBA) (h : ∀ u v, (px u v).a = 255)
    (srcSize dstSize i j : ℕ) (hdst : 0 < dstSize) (hle : dstSize ≤ srcSize)
    (hi : i < dstSize) (hj : j < dstSize) :
    (resample px srcSize dstSize i j).a = 255 :=
  boxAvg_const (fun u v => (px u v).a) 255 h srcSize dstSize i j hdst hle hi hj

/-- Every file in the write list has fully opaque pixel data inside its
bounds. -/
theorem written_files_alpha (w : SavedFile) (hmem : w ∈ written_files)
    (x y : ℕ) (hx : x < w.width) (hy : y < w.height) : (w.px x y).a = 255 := by
  rcases List.mem_cons.1 hmem with hbase | hloop
  · rw [hbase]
    exact alpha_icon x y
  · obtain ⟨e, he, rfl⟩ := List.mem_map.1 hloop
    have he2 : e ∈ icon_sizes := (List.mem_filter.1 he).1
    have hdims : ∀ p ∈ icon_sizes, 0 < p.1 ∧ p.1 ≤ base_size := by decide
    exact resample_alpha icon alpha_icon base_size e.1 x y
      (hdims e he2).1 (hdims e he2).2 hx hy

/-- C1: a successful run writes exactly one file per manifest entry: the write
list's paths are exactly the manifest paths in order (the 1024 entry written
once, directly from the canvas, before the loop; the loop skips the base-size
entry and writes each other entry once), with no duplicate paths. -/
theorem C1_one_file_per_manifest_entry :
    written_files.map (fun w => w.path) =
      icon_sizes.map (fun e => path_join output_dir e.2) ∧
    (written_files.map (fun w => w.path)).Nodup ∧
    written_files.head?.map (fun w => (w.path, w.filter)) =
      some (base_icon_path, none) :=
  ⟨rfl, by decide, rfl⟩

/-- C2: the file written for the base-resolution entry is the in-memory canvas
persisted with no resize applied: the first write is literally the canvas
`icon` (pixel-identical to the canvas after all drawing), with no resampling
filter. -/
theorem C2_base_saved_unresized :
    written_files.head? =
      some (SavedFile.mk base_icon_path base_size base_size icon none) :=
  rfl

/-- C3: for every manifest entry, a run writes a file at the path joining the
output directory with the entry's filename, and that file is square with
width and height equal to the requested dimension. -/
theorem C3_paths_and_dimensions :
    written_files.map (fun w => (w.path, w.width, w.height)) =
      icon_sizes.map (fun e => (path_join output_dir e.2, e.1, e.1)) :=
  rfl

/-- C4: the generator is deterministic: any two invocations produce the same
canvas pixel data and the same written files, since the outputs are a function
of the compile-time constants alone and the invocation index is never read. -/
theorem C4_deterministic (i j : ℕ) :
    generated_canvas i = generated_canvas j ∧
    generated_outputs i = generated_outputs j :=
  ⟨rfl, rfl⟩

/-- C9: the manifest's filenames are pairwise distinct, every manifest
dimension is the base size or strictly smaller, and every resized write is a
strict downsample (the program never upsamples). -/
theorem C9_distinct_names_strict_downsample :
    (icon_sizes.map Prod.snd).Nodup ∧
    (icon_sizes.all (fun e => (e.1 == base_size) || decide (e.1 < base_size))) = true ∧
    (written_files.all (fun w => (w.filter == none) || decide (w.width < base_size))) = true :=
  ⟨by decide, by decide, by decide⟩

/-- C10: calling `draw_placeholder_icon` with a symbol name other than the
three recognised ones performs no drawing operation and leaves any canvas
unchanged, for every position, size and colour. -/
theorem C10_unknown_symbol_draws_nothing (s : String)
    (h1 : s ≠ "leaf.fill") (h2 : s ≠ "building.columns.fill")
    (h3 : s ≠ "figure.play") (p : ℚ × ℚ) (size : ℚ) (c : RGB)
    (img : ℕ → ℕ → RGBA) :
    draw_placeholder_icon s p size c = [] ∧
    applyOps img (draw_placeholder_icon s p size c) = img := by
  have he : draw_placeholder_icon s p size c = [] := by
    simp [draw_placeholder_icon, h1, h2, h3]
  exact ⟨he, by rw [he]; rfl⟩

/-- C10 witness: at the concrete unrecognised symbol name "star.fill". -/
theorem C10_unknown_symbol_draws_nothing_witness :
    draw_placeholder_icon "star.fill" (0, 0) 1 primary_color = [] ∧
    applyOps (newRGBA info_blue_color)
      (draw_placeholder_icon "star.fill" (0, 0) 1 primary_color) =
      newRGBA info_blue_color :=
  C10_unknown_symbol_draws_nothing "star.fill" (by decide) (by decide)
    (by decide) (0, 0) 1 primary_color (newRGBA info_blue_color)

/-- C6: creating the output directory is idempotent: if it already exists the
call succeeds silently with the filesystem unchanged, it errors exactly when
the directory is absent and the path is unwritable, and running it twice in a
row is equivalent to running it once. -/
theorem C6_makedirs_idempotent (fs : FileSystem) :
    (output_dir ∈ fs.dirs → makedirs fs output_dir true = Except.ok fs) ∧
    (∀ fs2, makedirs fs output_dir true = Except.ok fs2 →
      makedirs fs2 output_dir true = Except.ok fs2) ∧
    ((∃ e, makedirs fs output_dir true = Except.error e) ↔
      output_dir ∉ fs.dirs ∧ output_dir ∈ fs.unwritablePaths) := by
  refine ⟨fun h => by simp [makedirs, h], ?_, ?_⟩
  · intro fs2 h
    by_cases h1 : output_dir ∈ fs.dirs
    · simp only [makedirs, if_pos h1, if_pos rfl] at h
      cases h
      simp [makedirs, h1]
    · by_cases h2 : output_dir ∈ fs.unwritablePaths
      · simp [makedirs, h1, h2] at h
      · simp only [makedirs, if_neg h1, if_neg h2] at h
        cases h
        have hmem : output_dir ∈ (output_dir :: fs.dirs) := List.mem_cons_self _ _
        simp [makedirs, hmem]
  · constructor
    · rintro ⟨e, he⟩
      by_cases h1 : output_dir ∈ fs.dirs
      · simp [makedirs, h1] at he
      · by_cases h2 : output_dir ∈ fs.unwritablePaths
        · exact ⟨h1, h2⟩
        · simp [makedirs, h1, h2] at he
    · rintro ⟨h1, h2⟩
      exact ⟨OSErrorKind.permissionError, by simp [makedirs, h1, h2]⟩

/-- C6 witness: on a filesystem that already contains the output directory,
the call succeeds silently and returns the filesystem unchanged. -/
theorem C6_makedirs_idempotent_witness :
    output_dir ∈ (FileSystem.mk [output_dir] []).dirs ∧
    makedirs (FileSystem.mk [output_dir] []) output_dir true =
      Except.ok (FileSystem.mk [output_dir] []) :=
  ⟨by decide, (C6_makedirs_idempotent (FileSystem.mk [output_dir] [])).1 (by decide)⟩

/-- C8: every pixel of every written output image, within its bounds, is
fully opaque: the canvas starts opaque, every draw call fills with an opaque
colour, and resampling a fully opaque image keeps alpha at 255. -/
theorem C8_all_pixels_fully_opaque (k : ℕ) (h : k < written_files.length)
    (x y : ℕ) (hx : x < (written_files.get ⟨k, h⟩).width)
    (hy : y < (written_files.get ⟨k, h⟩).height) :
    ((written_files.get ⟨k, h⟩).px x y).a = 255 :=
  written_files_alpha (written_files.get ⟨k, h⟩) (List.get_mem _ _ _) x y hx hy

/-- C8 witness: pixel (0, 0) of the first written file (the base icon) is
fully opaque. -/
theorem C8_all_pixels_fully_opaque_witness :
    0 < written_files.length ∧
    ((written_files.get ⟨0, by decide⟩).px 0 0).a = 255 :=
  ⟨by decide, C8_all_pixels_fully_opaque 0 (by decide) 0 0 (by decide) (by decide)⟩

/-- C5: every output whose dimension differs from the base size is produced
with the LANCZOS filter (which is not nearest-neighbour), and the modelled
anti-aliased resampler is quality-preserving: a solid colour downsizes to the
same single flat colour at every valid pixel, while a hard diagonal edge
spreads across more than one pixel value, producing an intermediate value that
is neither of the two source colours. -/
theorem C5_downsample_quality :
    (written_files.all (fun w =>
      (w.width == base_size) || (w.filter == some Resampling.LANCZOS))) = true ∧
    Resampling.LANCZOS ≠ Resampling.NEAREST ∧
    (∀ (c : RGBA) (srcSize dstSize i j : ℕ), 0 < dstSize → dstSize ≤ srcSize →
      i < dstSize → j < dstSize → resample (fun _ _ => c) srcSize dstSize i j = c) ∧
    resample edge_image 4 2 1 0 = RGBA.mk 255 255 255 255 ∧
    resample edge_image 4 2 0 0 ≠ resample edge_image 4 2 1 0 ∧
    resample edge_image 4 2 0 0 ≠ RGBA.mk 255 255 255 255 ∧
    resample edge_image 4 2 0 0 ≠ RGBA.mk 0 0 0 255 := by
  have h00 : resample edge_image 4 2 0 0 = RGBA.mk (255/4) (255/4) (255/4) 255 := by
    norm_num [resample, boxAvg, boxSum, coverage, clampTo, scale, edge_image,
      Finset.sum_range_succ, Finset.sum_range_zero, min_def, max_def, RGBA.mk.injEq]
  have h10 : resample edge_image 4 2 1 0 = RGBA.mk 255 255 255 255 := by
    norm_num [resample, boxAvg, boxSum, coverage, clampTo, scale, edge_image,
      Finset.sum_range_succ, Finset.sum_range_zero, min_def, max_def, RGBA.mk.injEq]
  refine ⟨by decide, by decide,
    fun c srcSize dstSize i j h1 h2 h3 h4 => resample_const c srcSize dstSize i j h1 h2 h3 h4,
    h10, ?_, ?_, ?_⟩
  · rw [h00, h10]
    norm_num [RGBA.mk.injEq]
  · rw [h00]
    norm_num [RGBA.mk.injEq]
  · rw [h00]
    norm_num [RGBA.mk.injEq]

/-- C5 witness: resampling a solid black image from 4x4 to 2x2 yields the
same flat colour at pixel (0, 0). -/
theorem C5_downsample_quality_witness :
    ((0 : ℕ) < 2 ∧ (2 : ℕ) ≤ 4 ∧ (0 : ℕ) < 2) ∧
    resample (fun _ _ => RGBA.mk 0 0 0 255) 4 2 0 0 = RGBA.mk 0 0 0 255 :=
  ⟨⟨by decide, by decide, by decide⟩,
   C5_downsample_quality.2.2.1 (RGBA.mk 0 0 0 255) 4 2 0 0 (by decide) (by decide)
     (by decide) (by decide)⟩

/-- C7 counterexample: the claim as stated is false: not every line call
receives well-ordered coordinates. The left-leg line of the stick figure is
drawn from (center_x, y + head_radius) to (center_x - leg_sep, y + half_size),
whose first x coordinate exceeds its second. -/
theorem C7_counterexample_line_call_not_ordered :
    ∃ op ∈ program_draw_ops, coordsOrdered op = false := by
  refine ⟨DrawOp.line center_x
    (icon_center_y + offset_factor * 0.8 + icon_size_small * 0.2)
    (center_x - icon_size_small * 0.2)
    (icon_center_y + offset_factor * 0.8 + icon_size_small / 2)
    highlight_color (max 1 (Int.toNat ⌊icon_size_small * 0.1⌋)), ?_, ?_⟩
  · simp [program_draw_ops, draw_placeholder_icon]
  · simp only [coordsOrdered, Bool.and_eq_false_iff, decide_eq_false_iff_not, not_le]
    left
    norm_num [center_x, icon_size_small, base_size]

/-- C7 (amended): every rectangle, rounded-rectangle and ellipse call of the
program receives well-ordered coordinates (x1 <= x2 and y1 <= y2), line calls
excepted since the line primitive accepts endpoints in any order and has no
malformed-geometry error branch, and every resize target dimension in the
manifest is strictly positive; so the fatal error branches for malformed
geometry and for non-positive target dimension are unreachable. -/
theorem C7_fill_calls_ordered_and_resize_positive :
    (program_draw_ops.all fillCoordsOrdered) = true ∧
    (icon_sizes.all (fun e => decide (0 < e.1))) = true := by
  have hne1 : ¬("building.columns.fill" = "leaf.fill") := by decide
  have hne2 : ¬("figure.play" = "leaf.fill") := by decide
  have hne3 : ¬("figure.play" = "building.columns.fill") := by decide
  constructor
  · norm_num [hne1, hne2, hne3, program_draw_ops, draw_placeholder_icon, fillCoordsOrdered,
      center_x, center_y, calendar_size, calendar_x1, calendar_x2, calendar_y1,
      calendar_y2, calendar_corner_radius, top_bar_height, ring_radius, ring_y,
      ring_spacing, icon_center_y, offset_factor, icon_size_small, base_size]
  · decide

/-- C4 witness: two concrete invocations, 0 and 1, agree. -/
theorem C4_deterministic_witness :
    generated_canvas 0 = generated_canvas 1 ∧
    generated_outputs 0 = generated_outputs 1 :=
  C4_deterministic 0 1
